import Mathlib

/-!
A shallow embedding of the `workato_mcp` package: the `WorkatoClient` HTTP
client (`workato_mcp/client.py`), the server startup environment check
(`workato_mcp/server.py`), and the tool registration layer
(`workato_mcp/tools/*.py`).  Each Python client method is modelled as a pure
function from the client state and the transport response to the outgoing
`HttpRequest` it builds and the `Except` result it produces; JSON payloads are
modelled by the inductive `Json` type.
-/

/-- JSON values, as decoded by the transport layer (the value that
`response.json()` returns) and as carried by request bodies. -/
inductive Json : Type where
  | null : Json
  | bool : Bool → Json
  | num : Int → Json
  | str : String → Json
  | arr : List Json → Json
  | obj : List (String × Json) → Json
deriving Repr

/-- Python truthiness of a decoded JSON value: `None`, `False`, `0`, the empty
string, the empty list and the empty dict are falsy; everything else is truthy. -/
def Json.truthy : Json → Bool
  | .null => false
  | .bool b => b
  | .num n => n != 0
  | .str s => s != ""
  | .arr xs => !xs.isEmpty
  | .obj fs => !fs.isEmpty

/-- The single-quote character, used by the Python `repr` of strings. -/
def squote : String := String.mk [Char.ofNat 39]

mutual

/-- A JSON serialization of a value (no escaping is applied to string
contents, so this covers payloads whose strings need none).  Used to express
that a response body is valid JSON text. -/
def Json.render : Json → String
  | .null => "null"
  | .bool true => "true"
  | .bool false => "false"
  | .num n => toString n
  | .str s => "\"" ++ s ++ "\""
  | .arr xs => "[" ++ renderElems xs ++ "]"
  | .obj fs => "\x7b" ++ renderFields fs ++ "\x7d"

/-- Serialize the elements of a JSON array, comma separated. -/
def renderElems : List Json → String
  | [] => ""
  | [x] => Json.render x
  | x :: y :: xs => Json.render x ++ "," ++ renderElems (y :: xs)

/-- Serialize the fields of a JSON object, comma separated. -/
def renderFields : List (String × Json) → String
  | [] => ""
  | [(k, v)] => "\"" ++ k ++ "\":" ++ Json.render v
  | (k, v) :: f :: fs => "\"" ++ k ++ "\":" ++ Json.render v ++ "," ++ renderFields (f :: fs)

end

mutual

/-- The Python textual rendering (`repr`) of a decoded JSON value, which is
what an f-string interpolation such as `f"Recipe details: (recipe)"` embeds:
dicts print with single-quoted keys, strings single-quoted, booleans
capitalized, `None` for null. -/
def Json.pyRepr : Json → String
  | .null => "None"
  | .bool true => "True"
  | .bool false => "False"
  | .num n => toString n
  | .str s => squote ++ s ++ squote
  | .arr xs => "[" ++ pyReprElems xs ++ "]"
  | .obj fs => "\x7b" ++ pyReprFields fs ++ "\x7d"

/-- Python `repr` of the elements of a list. -/
def pyReprElems : List Json → String
  | [] => ""
  | [x] => Json.pyRepr x
  | x :: y :: xs => Json.pyRepr x ++ ", " ++ pyReprElems (y :: xs)

/-- Python `repr` of the items of a dict. -/
def pyReprFields : List (String × Json) → String
  | [] => ""
  | [(k, v)] => squote ++ k ++ squote ++ ": " ++ Json.pyRepr v
  | (k, v) :: f :: fs => squote ++ k ++ squote ++ ": " ++ Json.pyRepr v ++ ", " ++ pyReprFields (f :: fs)

end

/-- A `Union[int, str]` identifier, as taken by the path parameters of the
client methods. -/
inductive IdVal : Type where
  | int : Int → IdVal
  | str : String → IdVal
deriving Repr, DecidableEq

/-- F-string rendering of an identifier into a URL path. -/
def IdVal.render : IdVal → String
  | .int n => toString n
  | .str s => s

/-- The identifier as a JSON scalar, as placed in a query-parameter dict. -/
def IdVal.toJson : IdVal → Json
  | .int n => .num n
  | .str s => .str s

/-- Python truthiness of an identifier (`0` and the empty string are falsy). -/
def IdVal.truthy : IdVal → Bool
  | .int n => n != 0
  | .str s => s != ""

/-- HTTP method of a request issued via `httpx.AsyncClient`. -/
inductive Method : Type where
  | GET : Method
  | POST : Method
  | PUT : Method
  | PATCH : Method
  | DELETE : Method
deriving Repr, DecidableEq

/-- The body of an outgoing request: absent (`json=None` / no `json=` given),
a JSON payload (`json=...`), or raw binary content (`content=...`). -/
inductive ReqBody : Type where
  | empty : ReqBody
  | json : Json → ReqBody
  | content : String → ReqBody
deriving Repr

/-- An outgoing HTTP request as assembled by a client method: verb, full URL,
header dict, query-parameter dict and body. -/
structure HttpRequest : Type where
  method : Method
  url : String
  headers : List (String × String)
  params : List (String × Json)
  body : ReqBody
  followRedirects : Bool
deriving Repr

/-- The transport response a mocked call returns: the HTTP status, the raw
body text (`response.content`), and the value `response.json()` decodes the
body to. -/
structure HttpResponse : Type where
  status : Nat
  content : String
  jsonBody : Json
deriving Repr

/-- `httpx` counts a status as successful exactly when it lies in 200..299;
`raise_for_status` raises for every other status. -/
def isSuccess (status : Nat) : Bool := 200 ≤ status && status < 300

/-- The error `raise_for_status` raises on a non-2xx response, carrying the
status code and the response body. -/
structure ApiError : Type where
  status : Nat
  body : String
deriving Repr, DecidableEq

/-- `response.raise_for_status()` followed by `return response.json()`: the
shared tail of every JSON-returning client method. -/
def executeJson (r : HttpResponse) : Except ApiError Json :=
  if isSuccess r.status then .ok r.jsonBody else .error ⟨r.status, r.content⟩

/-- `response.raise_for_status()` followed by `return response.content`: the
tail of the package-download method, which never decodes the body. -/
def executeRaw (r : HttpResponse) : Except ApiError String :=
  if isSuccess r.status then .ok r.content else .error ⟨r.status, r.content⟩

/-- The state a `WorkatoClient` instance holds after `__init__`: the three
fields the constructor assigns.  No method of the class ever reassigns them,
so every modelled operation returns this state unchanged. -/
structure ClientState : Type where
  api_token : String
  base_url : String
  headers : List (String × String)
deriving Repr

/-- The default platform URL used when no base URL is supplied. -/
def defaultBaseUrl : String := "https://www.workato.com/api"

/-- Python truthiness of a string: only the empty string is falsy. -/
def strTruthy (s : String) : Bool := s != ""

/-- Python truthiness of an `os.getenv` result: unset (`None`) and the empty
string are falsy. -/
def envTruthy : Option String → Bool
  | none => false
  | some s => strTruthy s

/-- Python `a or b` where `a` is an optional string: yields `a` when truthy,
otherwise `b`. -/
def pyOrOpt (a b : Option String) : Option String :=
  match a with
  | some s => if strTruthy s then some s else b
  | none => b

/-- `os.getenv(key, default)`: the environment value when the variable is set
(even to the empty string), otherwise the default. -/
def getenvD (env : String → Option String) (k d : String) : String :=
  (env k).getD d

/-- The error message `WorkatoClient.__init__` raises when no API token is
available. -/
def missingTokenMsg : String :=
  "API token is required. Provide it as a parameter or set WORKATO_API_TOKEN environment variable."

/-- `WorkatoClient.__init__`: resolve the token as `api_token or
os.getenv("WORKATO_API_TOKEN")` and fail when the result is falsy; resolve the
base URL as `base_url or os.getenv("WORKATO_BASE_URL", default)`; build the
two construction headers.  No request is issued: the result is only a
`ClientState` from which requests can later be built. -/
def initClient (api_token base_url : Option String)
    (env : String → Option String) : Except String ClientState :=
  match pyOrOpt api_token (env "WORKATO_API_TOKEN") with
  | none => .error missingTokenMsg
  | some tok =>
    if strTruthy tok then
      let burl :=
        match base_url with
        | some b => if strTruthy b then b else getenvD env "WORKATO_BASE_URL" defaultBaseUrl
        | none => getenvD env "WORKATO_BASE_URL" defaultBaseUrl
      .ok { api_token := tok
            base_url := burl
            headers := [("Authorization", "Bearer " ++ tok),
                        ("Content-Type", "application/json")] }
    else .error missingTokenMsg

/-- `server.py`: the environment variables the server validates at startup. -/
def required_env_vars : List String := ["WORKATO_API_TOKEN", "WORKATO_BASE_URL"]

/-- `server.py`: the required variables whose `os.getenv` value is falsy. -/
def missing_vars (env : String → Option String) : List String :=
  required_env_vars.filter (fun v => !envTruthy (env v))

/-- `", ".join(...)`. -/
def joinComma : List String → String
  | [] => ""
  | [x] => x
  | x :: y :: xs => x ++ ", " ++ joinComma (y :: xs)

/-- `server.py` startup validation: raise a `ValueError` naming the missing
variables when any required variable is unset or empty. -/
def serverStartupCheck (env : String → Option String) : Except String Unit :=
  if (missing_vars env).isEmpty then .ok ()
  else .error ("Missing required environment variables: " ++ joinComma (missing_vars env))

/-- The outcome of one modelled call: the client state after the call (always
unchanged, since no method assigns to `self`), the single request the call
issued, and the call result. -/
structure CallResult (α : Type) : Type where
  state : ClientState
  request : HttpRequest
  result : Except ApiError α

/-- Apply a formatting function to the result of a call, leaving the state,
the request, and any error untouched.  This is what each tool wrapper does. -/
def mapResult {α β : Type} (c : CallResult α) (f : α → β) : CallResult β :=
  { state := c.state, request := c.request, result := c.result.map f }

/-- Python truthiness of an optional identifier. -/
def optIdTruthy : Option IdVal → Bool
  | none => false
  | some v => v.truthy

/-- Python truthiness of an optional string. -/
def optStrTruthy : Option String → Bool
  | none => false
  | some s => strTruthy s

/-- Python truthiness of an optional integer. -/
def optIntTruthy : Option Int → Bool
  | none => false
  | some n => n != 0

/-- `str(b).lower()` for a Python boolean. -/
def pyBoolStr (b : Bool) : String := if b then "true" else "false"

/-- `WorkatoClient.get_recipe_details`: GET `(base_url)/recipes/(recipe_id)`
with the shared headers and no query parameters or body. -/
def get_recipe_details (st : ClientState) (recipe_id : IdVal)
    (resp : HttpResponse) : CallResult Json :=
  { state := st
    request := { method := .GET
                 url := st.base_url ++ "/recipes/" ++ recipe_id.render
                 headers := st.headers
                 params := []
                 body := .empty
                 followRedirects := false }
    result := executeJson resp }

/-- The query dict `WorkatoClient.get_jobs` builds: each of `recipe_id`,
`status`, `limit` is added only when truthy, in that insertion order. -/
def get_jobs_params (recipe_id : Option IdVal) (status : Option String)
    (limit : Option Int) : List (String × Json) :=
  (if optIdTruthy recipe_id then [("recipe_id", (recipe_id.getD (.int 0)).toJson)] else [])
  ++ (if optStrTruthy status then [("status", .str (status.getD ""))] else [])
  ++ (if optIntTruthy limit then [("limit", .num (limit.getD 0))] else [])

/-- `WorkatoClient.get_jobs`: GET `(base_url)/jobs` with the conditionally
built filter parameters. -/
def get_jobs (st : ClientState) (recipe_id : Option IdVal) (status : Option String)
    (limit : Option Int) (resp : HttpResponse) : CallResult Json :=
  { state := st
    request := { method := .GET
                 url := st.base_url ++ "/jobs"
                 headers := st.headers
                 params := get_jobs_params recipe_id status limit
                 body := .empty
                 followRedirects := false }
    result := executeJson resp }

/-- The body `WorkatoClient.test_recipe` sends: `input_data or ()`, i.e. the
supplied dict when truthy and the empty JSON object otherwise. -/
def test_recipe_body (input_data : Option Json) : Json :=
  match input_data with
  | some j => if j.truthy then j else .obj []
  | none => .obj []

/-- `WorkatoClient.test_recipe`: POST
`(base_url)/recipes/(recipe_id)/test_run` with a JSON body that is always
present (`json=input_data or ()`). -/
def test_recipe (st : ClientState) (recipe_id : IdVal) (input_data : Option Json)
    (resp : HttpResponse) : CallResult Json :=
  { state := st
    request := { method := .POST
                 url := st.base_url ++ "/recipes/" ++ recipe_id.render ++ "/test_run"
                 headers := st.headers
                 params := []
                 body := .json (test_recipe_body input_data)
                 followRedirects := false }
    result := executeJson resp }

/-- `WorkatoClient.create_recipe`: POST `(base_url)/recipes` with the payload
nested under the `recipe` envelope key. -/
def create_recipe (st : ClientState) (recipe_data : Json)
    (resp : HttpResponse) : CallResult Json :=
  { state := st
    request := { method := .POST
                 url := st.base_url ++ "/recipes"
                 headers := st.headers
                 params := []
                 body := .json (.obj [("recipe", recipe_data)])
                 followRedirects := false }
    result := executeJson resp }

/-- `WorkatoClient.update_recipe`: PUT `(base_url)/recipes/(recipe_id)` with
the payload nested under the `recipe` envelope key. -/
def update_recipe (st : ClientState) (recipe_id : IdVal) (recipe_data : Json)
    (resp : HttpResponse) : CallResult Json :=
  { state := st
    request := { method := .PUT
                 url := st.base_url ++ "/recipes/" ++ recipe_id.render
                 headers := st.headers
                 params := []
                 body := .json (.obj [("recipe", recipe_data)])
                 followRedirects := false }
    result := executeJson resp }

/-- The payload dict `WorkatoClient.copy_recipe` builds: `folder_id` is added
only when truthy. -/
def copy_recipe_payload (folder_id : Option String) : List (String × Json) :=
  if optStrTruthy folder_id then [("folder_id", .str (folder_id.getD ""))] else []

/-- The body `WorkatoClient.copy_recipe` sends: `json=payload if payload else
None`, so an empty payload dict means no body at all. -/
def copy_recipe_body (folder_id : Option String) : ReqBody :=
  if (copy_recipe_payload folder_id).isEmpty then .empty
  else .json (.obj (copy_recipe_payload folder_id))

/-- `WorkatoClient.copy_recipe`: POST `(base_url)/recipes/(recipe_id)/copy`
with the conditional body. -/
def copy_recipe (st : ClientState) (recipe_id : IdVal) (folder_id : Option String)
    (resp : HttpResponse) : CallResult Json :=
  { state := st
    request := { method := .POST
                 url := st.base_url ++ "/recipes/" ++ recipe_id.render ++ "/copy"
                 headers := st.headers
                 params := []
                 body := copy_recipe_body folder_id
                 followRedirects := false }
    result := executeJson resp }

/-- The query dict `WorkatoClient.get_folder_assets` builds: `folder_id` is
added whenever it is not `None` (an `is not None` check, unlike the truthiness
checks elsewhere); the two boolean flags are added only when true, with their
lowercased string rendering. -/
def get_folder_assets_params (folder_id : Option Int)
    (include_test_cases include_data : Bool) : List (String × Json) :=
  (match folder_id with
   | some fid => [("folder_id", Json.num fid)]
   | none => [])
  ++ (if include_test_cases then [("include_test_cases", .str (pyBoolStr include_test_cases))] else [])
  ++ (if include_data then [("include_data", .str (pyBoolStr include_data))] else [])

/-- `WorkatoClient.get_folder_assets`: GET
`(base_url)/export_manifests/folder_assets` with the conditional parameters. -/
def get_folder_assets (st : ClientState) (folder_id : Option Int)
    (include_test_cases include_data : Bool) (resp : HttpResponse) : CallResult Json :=
  { state := st
    request := { method := .GET
                 url := st.base_url ++ "/export_manifests/folder_assets"
                 headers := st.headers
                 params := get_folder_assets_params folder_id include_test_cases include_data
                 body := .empty
                 followRedirects := false }
    result := executeJson resp }

/-- `WorkatoClient.create_export_manifest`: POST `(base_url)/export_manifests`
with the payload nested under the `export_manifest` envelope key. -/
def create_export_manifest (st : ClientState) (export_manifest : Json)
    (resp : HttpResponse) : CallResult Json :=
  { state := st
    request := { method := .POST
                 url := st.base_url ++ "/export_manifests"
                 headers := st.headers
                 params := []
                 body := .json (.obj [("export_manifest", export_manifest)])
                 followRedirects := false }
    result := executeJson resp }

/-- `WorkatoClient.create_lookup_table`: POST `(base_url)/lookup_tables` with
the payload nested under the `lookup_table` envelope key. -/
def create_lookup_table (st : ClientState) (lookup_table : Json)
    (resp : HttpResponse) : CallResult Json :=
  { state := st
    request := { method := .POST
                 url := st.base_url ++ "/lookup_tables"
                 headers := st.headers
                 params := []
                 body := .json (.obj [("lookup_table", lookup_table)])
                 followRedirects := false }
    result := executeJson resp }

/-- `WorkatoClient.add_lookup_table_row`: POST
`(base_url)/lookup_tables/(id)/rows` with the row nested under `data`. -/
def add_lookup_table_row (st : ClientState) (lookup_table_id : IdVal) (data : Json)
    (resp : HttpResponse) : CallResult Json :=
  { state := st
    request := { method := .POST
                 url := st.base_url ++ "/lookup_tables/" ++ lookup_table_id.render ++ "/rows"
                 headers := st.headers
                 params := []
                 body := .json (.obj [("data", data)])
                 followRedirects := false }
    result := executeJson resp }

/-- `WorkatoClient.update_lookup_table_row`: PUT
`(base_url)/lookup_tables/(id)/rows/(row_id)` with the row nested under
`data`. -/
def update_lookup_table_row (st : ClientState) (lookup_table_id row_id : IdVal)
    (data : Json) (resp : HttpResponse) : CallResult Json :=
  { state := st
    request := { method := .PUT
                 url := st.base_url ++ "/lookup_tables/" ++ lookup_table_id.render
                        ++ "/rows/" ++ row_id.render
                 headers := st.headers
                 params := []
                 body := .json (.obj [("data", data)])
                 followRedirects := false }
    result := executeJson resp }

/-- `(**self.headers, k: v)`: the Python dict-merge used by the binary upload.
An existing key keeps its position and takes the new value; a fresh key is
appended.  The original dict is not modified. -/
def dictSet (d : List (String × String)) (k v : String) : List (String × String) :=
  if d.any (fun kv => kv.1 == k) then
    d.map (fun kv => if kv.1 == k then (k, v) else kv)
  else d ++ [(k, v)]

/-- The query dict `WorkatoClient.import_package` builds: the two boolean
flags are always present (lowercased), `folder_id_for_home_assets` only when
truthy. -/
def import_package_params (restart_recipes include_tags : Bool)
    (folder_id_for_home_assets : Option String) : List (String × Json) :=
  [("restart_recipes", Json.str (pyBoolStr restart_recipes)),
   ("include_tags", Json.str (pyBoolStr include_tags))]
  ++ (if optStrTruthy folder_id_for_home_assets then
        [("folder_id_for_home_assets", Json.str (folder_id_for_home_assets.getD ""))]
      else [])

/-- `WorkatoClient.import_package`: POST
`(base_url)/packages/import/(folder_id)` with raw binary content, sending a
fresh header dict in which only `Content-Type` is overridden to
`application/octet-stream`; the stored headers are not touched. -/
def import_package (st : ClientState) (folder_id : IdVal) (file_bytes : String)
    (restart_recipes include_tags : Bool) (folder_id_for_home_assets : Option String)
    (resp : HttpResponse) : CallResult Json :=
  { state := st
    request := { method := .POST
                 url := st.base_url ++ "/packages/import/" ++ folder_id.render
                 headers := dictSet st.headers "Content-Type" "application/octet-stream"
                 params := import_package_params restart_recipes include_tags folder_id_for_home_assets
                 body := .content file_bytes
                 followRedirects := false }
    result := executeJson resp }

/-- `WorkatoClient.get_package`: GET `(base_url)/packages/(package_id)`,
JSON-decoded result. -/
def get_package (st : ClientState) (package_id : IdVal)
    (resp : HttpResponse) : CallResult Json :=
  { state := st
    request := { method := .GET
                 url := st.base_url ++ "/packages/" ++ package_id.render
                 headers := st.headers
                 params := []
                 body := .empty
                 followRedirects := false }
    result := executeJson resp }

/-- `WorkatoClient.download_package`: GET
`(base_url)/packages/(package_id)/download` with redirects followed; the
result is `response.content`, the raw body, never decoded. -/
def download_package (st : ClientState) (package_id : IdVal)
    (resp : HttpResponse) : CallResult String :=
  { state := st
    request := { method := .GET
                 url := st.base_url ++ "/packages/" ++ package_id.render ++ "/download"
                 headers := st.headers
                 params := []
                 body := .empty
                 followRedirects := true }
    result := executeRaw resp }

/-- The keyword parameters `httpx.AsyncClient.get` accepts: the helper is
keyword-only and carries no body parameter (no `json`, `data`, `content` or
`files`); a body on a GET requires the generic `request` method instead. -/
def httpxGetKwargs : List String :=
  ["params", "headers", "cookies", "auth", "follow_redirects", "timeout",
   "extensions"]

/-- The first keyword argument of a written `get(...)` call that the helper
signature rejects, if any: Python raises a `TypeError` for it when binding the
call, before any request is built or sent. -/
def httpxGetRejects (kwargs : List String) : Option String :=
  kwargs.find? (fun k => !(httpxGetKwargs.contains k))

/-- The outcome of invoking a client method whose written call may be rejected
by the transport helper signature: either a `TypeError` raised at call-binding
time — the client state, untouched, is carried alongside, and no request ever
exists — or a completed call. -/
inductive PyCallOutcome (α : Type) : Type where
  | typeError : ClientState → String → PyCallOutcome α
  | call : CallResult α → PyCallOutcome α

/-- The client state after the invocation attempt: unchanged on both paths. -/
def PyCallOutcome.state {α : Type} : PyCallOutcome α → ClientState
  | .typeError st _ => st
  | .call c => c.state

/-- `WorkatoClient.search_custom_connectors`: the written call is
`client.get(url, headers=self.headers, json=payload)`, but `get` accepts no
`json` keyword (see `httpxGetKwargs`; every other modelled method passes only
accepted keyword arguments), so binding the call raises a `TypeError` naming
the unexpected argument and the GET carrying the title as a JSON body is
never issued.  The `call` branch records what the written call describes, and
is unreachable for this method. -/
def search_custom_connectors (st : ClientState) (title : String)
    (resp : HttpResponse) : PyCallOutcome Json :=
  match httpxGetRejects ["headers", "json"] with
  | some k =>
    .typeError st ("get() got an unexpected keyword argument "
      ++ squote ++ k ++ squote)
  | none =>
    .call { state := st
            request := { method := .GET
                         url := st.base_url ++ "/custom_connectors/search"
                         headers := st.headers
                         params := []
                         body := .json (.obj [("title", .str title)])
                         followRedirects := false }
            result := executeJson resp }

/-- Python `len` of a decoded JSON value. -/
def pyLen : Json → Nat
  | .arr xs => xs.length
  | .obj fs => fs.length
  | .str s => s.length
  | _ => 0

/-- The `get_recipe` tool (`tools/recipes.py`): delegates to
`get_recipe_details` and renders the result as `Recipe details:` followed by
the textual dump of the decoded structure. -/
def get_recipe_tool (st : ClientState) (recipe_id : IdVal)
    (resp : HttpResponse) : CallResult String :=
  mapResult (get_recipe_details st recipe_id resp)
    (fun recipe => "Recipe details:\n\n" ++ recipe.pyRepr)

/-- The `get_package` tool (`tools/recipe_lifecycle_management.py`): renders
the decoded result as a labeled string. -/
def get_package_tool (st : ClientState) (package_id : IdVal)
    (resp : HttpResponse) : CallResult String :=
  mapResult (get_package st package_id resp)
    (fun result => "Package details: " ++ result.pyRepr)

/-- The `download_package` tool (`tools/recipe_lifecycle_management.py`):
returns the raw bytes from the client unchanged, with no label and no
formatting. -/
def download_package_tool (st : ClientState) (package_id : IdVal)
    (resp : HttpResponse) : CallResult String :=
  download_package st package_id resp

/-- Modelled from the spec: the "list jobs" tool operation is absent from
`src/workato_mcp/tools` (only the client method `get_jobs` and a test
importing `list_jobs` exist), so its formatting is taken from the spec: it
calls the jobs-listing client method with the supplied filters and produces a
result string containing the literal count and the list of returned job
records, in the `Found (n) ...` style the sibling `list_recipes` tool uses. -/
def list_jobs_tool (st : ClientState) (recipe_id : Option IdVal)
    (status : Option String) (limit : Option Int)
    (resp : HttpResponse) : CallResult String :=
  mapResult (get_jobs st recipe_id status limit resp)
    (fun jobs => "Found " ++ toString (pyLen jobs) ++ " jobs:\n\n" ++ jobs.pyRepr)

/-- A client state as built by construction with the test-fixture token. -/
def sampleState : ClientState :=
  { api_token := "test_token"
    base_url := "https://test.workato.com/api"
    headers := [("Authorization", "Bearer test_token"),
                ("Content-Type", "application/json")] }

/-- A successful mocked response with an empty JSON array body. -/
def sampleResp : HttpResponse :=
  { status := 200, content := "[]", jsonBody := .arr [] }

/-- C1: constructing the client with no explicit credential and none available
from the environment fails with the configuration error (and produces no
request at all, only an `Except.error`); when a nonempty credential is
supplied, construction succeeds and the resulting header set carries the
bearer-authorization header built from that credential and the JSON
content-type header. -/
theorem claim_C1 (env : String → Option String) (b : Option String) (t : String)
    (henv : env "WORKATO_API_TOKEN" = none) (ht : strTruthy t = true) :
    initClient none b env = .error missingTokenMsg ∧
    Except.map ClientState.headers (initClient (some t) b env)
      = .ok [("Authorization", "Bearer " ++ t),
             ("Content-Type", "application/json")] := by
  constructor
  · simp [initClient, pyOrOpt, henv]
  · cases b with
    | none => simp [initClient, pyOrOpt, ht, Except.map]
    | some bb =>
      by_cases hbb : strTruthy bb = true <;>
        simp [initClient, pyOrOpt, ht, hbb, Except.map]

/-- Witness for C1 at a concrete empty environment and the token `tok`. -/
theorem claim_C1_witness :
    ((fun _ => (none : Option String)) "WORKATO_API_TOKEN" = none ∧
      strTruthy "tok" = true) ∧
    (initClient none none (fun _ => none) = .error missingTokenMsg ∧
     Except.map ClientState.headers (initClient (some "tok") none (fun _ => none))
       = .ok [("Authorization", "Bearer " ++ "tok"),
              ("Content-Type", "application/json")]) :=
  ⟨⟨rfl, by decide⟩, claim_C1 (fun _ => none) none "tok" rfl (by decide)⟩

/-- C2 counterexample: `test_recipe` invoked without `input_data` does not
omit the payload — it sends the empty JSON object `\x7b\x7d` as the request
body (`json=input_data or \x7b\x7d`), an empty structure on the wire. -/
theorem claim_C2_counterexample :
    (test_recipe sampleState (.int 1) none sampleResp).request.body
      = .json (.obj []) ∧
    (test_recipe sampleState (.int 1) none sampleResp).request.body ≠ .empty :=
  ⟨rfl, fun h => ReqBody.noConfusion h⟩

/-- C2 amended: for the query-building operations, an optional parameter left
unset (or supplied falsy) is omitted entirely — `get_jobs` with only `status`
set sends a query containing exactly the `status` key, and `copy_recipe`
without a folder sends no body at all — but `test_recipe` called without
`input_data` sends an empty JSON object as the request body rather than
omitting the payload. -/
theorem claim_C2_amended (st : ClientState) (s : String) (rid : IdVal)
    (resp : HttpResponse) (hs : strTruthy s = true) :
    (get_jobs st none (some s) none resp).request.params = [("status", .str s)] ∧
    (get_jobs st none none none resp).request.params = [] ∧
    (copy_recipe st rid none resp).request.body = .empty ∧
    (test_recipe st rid none resp).request.body = .json (.obj []) := by
  refine ⟨?_, rfl, rfl, rfl⟩
  simp [get_jobs, get_jobs_params, optIdTruthy, optStrTruthy, optIntTruthy, hs]

/-- Witness for the amended C2 at `status = "success"`. -/
theorem claim_C2_amended_witness :
    strTruthy "success" = true ∧
    ((get_jobs sampleState none (some "success") none sampleResp).request.params
        = [("status", .str "success")] ∧
     (get_jobs sampleState none none none sampleResp).request.params = [] ∧
     (copy_recipe sampleState (.int 1) none sampleResp).request.body = .empty ∧
     (test_recipe sampleState (.int 1) none sampleResp).request.body
        = .json (.obj [])) :=
  ⟨by decide, claim_C2_amended sampleState "success" (.int 1) sampleResp (by decide)⟩

/-- C3: every create/update operation whose endpoint expects an envelope key
replicates the exact nesting: `create_recipe` and `update_recipe` wrap the
payload under `recipe`, `create_export_manifest` under `export_manifest`,
`create_lookup_table` under `lookup_table`, and the lookup-table row
add/update mutations under `data`. -/
theorem claim_C3 (st : ClientState) (rid lid row : IdVal) (p : Json)
    (resp : HttpResponse) :
    (create_recipe st p resp).request.body = .json (.obj [("recipe", p)]) ∧
    (update_recipe st rid p resp).request.body = .json (.obj [("recipe", p)]) ∧
    (create_export_manifest st p resp).request.body
      = .json (.obj [("export_manifest", p)]) ∧
    (create_lookup_table st p resp).request.body
      = .json (.obj [("lookup_table", p)]) ∧
    (add_lookup_table_row st lid p resp).request.body
      = .json (.obj [("data", p)]) ∧
    (update_lookup_table_row st lid row p resp).request.body
      = .json (.obj [("data", p)]) :=
  ⟨rfl, rfl, rfl, rfl, rfl, rfl⟩

/-- C7 counterexample: `get_folder_assets` does not treat the legitimate
value `0` as absent — supplying `folder_id = 0` sends the query parameter
`folder_id = 0` (the method checks `is not None`, not truthiness). -/
theorem claim_C7_counterexample :
    (get_folder_assets sampleState (some 0) false false sampleResp).request.params
      = [("folder_id", Json.num 0)] ∧
    (get_folder_assets sampleState (some 0) false false sampleResp).request.params
      ≠ [] :=
  ⟨rfl, fun h => List.noConfusion h⟩

/-- C7 amended: `get_jobs` (recipe_id, status, limit) and `copy_recipe`
(folder_id) treat a falsy supplied value — in particular `0` and the empty
string — the same as not supplied and omit it, `copy_recipe` then sending no
body at all; `get_folder_assets`, however, omits `folder_id` only when it is
`None`, and a supplied `folder_id = 0` is sent in the query. -/
theorem claim_C7_amended (st : ClientState) (rid : IdVal) (resp : HttpResponse)
    (n : Int) :
    (get_jobs st (some (.int 0)) (some "") (some 0) resp).request.params = [] ∧
    (copy_recipe st rid (some "") resp).request.body = .empty ∧
    (copy_recipe st rid none resp).request.body = .empty ∧
    (get_folder_assets st none false false resp).request.params = [] ∧
    (get_folder_assets st (some n) false false resp).request.params
      = [("folder_id", Json.num n)] :=
  ⟨rfl, rfl, rfl, rfl, rfl⟩

/-- C10 (code bug): the written call in `search_custom_connectors` passes a
`json` keyword to `httpx.AsyncClient.get`, whose keyword-only signature has
no body parameter, so for every title the invocation raises a `TypeError`
naming the unexpected `json` argument — the state is left untouched and no
GET carrying the title as a JSON request body is ever issued. -/
theorem claim_C10 (st : ClientState) (title : String) (resp : HttpResponse) :
    search_custom_connectors st title resp
      = .typeError st ("get() got an unexpected keyword argument "
          ++ squote ++ "json" ++ squote) ∧
    ∀ c : CallResult Json, search_custom_connectors st title resp ≠ .call c :=
  ⟨rfl, fun _ h => PyCallOutcome.noConfusion h⟩

/-- C4: a non-2xx transport response makes the client operation fail with an
error carrying the status and body; the tool wrapper propagates exactly that
error with no translation and no partial result; the failed call leaves the
client state untouched, so a subsequent independent call behaves exactly as
it would from the construction state. -/
theorem claim_C4 (st : ClientState) (rid : IdVal) (r r2 : HttpResponse)
    (recipe_id : Option IdVal) (status : Option String) (limit : Option Int)
    (hfail : isSuccess r.status = false) :
    (get_recipe_details st rid r).result = .error ⟨r.status, r.content⟩ ∧
    (get_recipe_tool st rid r).result = .error ⟨r.status, r.content⟩ ∧
    (get_recipe_tool st rid r).state = st ∧
    get_jobs (get_recipe_tool st rid r).state recipe_id status limit r2
      = get_jobs st recipe_id status limit r2 := by
  refine ⟨?_, ?_, rfl, rfl⟩ <;>
    simp [get_recipe_details, get_recipe_tool, mapResult, executeJson,
          hfail, Except.map]

/-- A non-2xx mocked response: a 500 with a plain-text body. -/
def errorResp : HttpResponse :=
  { status := 500, content := "Internal Server Error", jsonBody := .null }

/-- Witness for C4 at the concrete 500 response. -/
theorem claim_C4_witness :
    isSuccess errorResp.status = false ∧
    ((get_recipe_details sampleState (.int 1) errorResp).result
        = .error ⟨errorResp.status, errorResp.content⟩ ∧
     (get_recipe_tool sampleState (.int 1) errorResp).result
        = .error ⟨errorResp.status, errorResp.content⟩ ∧
     (get_recipe_tool sampleState (.int 1) errorResp).state = sampleState ∧
     get_jobs (get_recipe_tool sampleState (.int 1) errorResp).state
        none none none sampleResp
       = get_jobs sampleState none none none sampleResp) :=
  ⟨by decide,
   claim_C4 sampleState (.int 1) errorResp sampleResp none none none (by decide)⟩

/-- C5: the package-download operation returns the raw response body
unmodified — even when that body is the serialization of a JSON value it is
returned as raw text, never as the decoded structure — and the
`download_package` tool passes those bytes through unchanged, while a sibling
tool such as `get_package` renders its decoded result into a labeled
string. -/
theorem claim_C5 (st : ClientState) (pid : IdVal) (r : HttpResponse) (j : Json)
    (hok : isSuccess r.status = true) (hjson : r.content = Json.render j) :
    (download_package st pid r).result = .ok (Json.render j) ∧
    (download_package_tool st pid r).result = .ok (Json.render j) ∧
    (get_package_tool st pid r).result
      = .ok ("Package details: " ++ r.jsonBody.pyRepr) := by
  refine ⟨?_, ?_, ?_⟩ <;>
    simp [download_package, download_package_tool, get_package, get_package_tool,
          mapResult, executeRaw, executeJson, hok, hjson, Except.map]

/-- A successful response whose body is exactly the JSON serialization of the
object with the single field `id = 7`. -/
def jsonBodyResp : HttpResponse :=
  { status := 200
    content := Json.render (Json.obj [("id", Json.num 7)])
    jsonBody := Json.obj [("id", Json.num 7)] }

/-- Witness for C5 at the concrete valid-JSON download body. -/
theorem claim_C5_witness :
    (isSuccess jsonBodyResp.status = true ∧
      jsonBodyResp.content = Json.render (Json.obj [("id", Json.num 7)])) ∧
    ((download_package sampleState (.int 3) jsonBodyResp).result
        = .ok (Json.render (Json.obj [("id", Json.num 7)])) ∧
     (download_package_tool sampleState (.int 3) jsonBodyResp).result
        = .ok (Json.render (Json.obj [("id", Json.num 7)])) ∧
     (get_package_tool sampleState (.int 3) jsonBodyResp).result
        = .ok ("Package details: " ++ jsonBodyResp.jsonBody.pyRepr)) :=
  ⟨⟨by decide, rfl⟩,
   claim_C5 sampleState (.int 3) jsonBodyResp (Json.obj [("id", Json.num 7)])
     (by decide) rfl⟩

/-- An environment that provides only the API token variable. -/
def envTokenOnly : String → Option String :=
  fun k => if k == "WORKATO_API_TOKEN" then some "test_token" else none

/-- C6 counterexample: with the credential present but the base-URL variable
absent, the server startup validation does not succeed — it fails with the
missing-variables error naming `WORKATO_BASE_URL`, because `server.py` lists
the base-URL variable among its required variables. -/
theorem claim_C6_counterexample :
    serverStartupCheck envTokenOnly
      = .error "Missing required environment variables: WORKATO_BASE_URL" ∧
    serverStartupCheck envTokenOnly ≠ .ok () :=
  ⟨rfl, fun h => Except.noConfusion h⟩

/-- C6 amended: client construction alone does treat the base URL as optional
— with a credential and no base URL it succeeds and uses the documented
default platform URL — but the server startup validation treats the base-URL
environment variable as required alongside the credential: startup fails
whenever the base-URL variable is unset, and succeeds when both variables are
set to nonempty values. -/
theorem claim_C6_amended (env : String → Option String) (t : String)
    (ht : strTruthy t = true) (hb : env "WORKATO_BASE_URL" = none) :
    Except.map ClientState.base_url (initClient (some t) none env)
      = .ok defaultBaseUrl ∧
    serverStartupCheck env ≠ .ok () ∧
    (∀ env2 : String → Option String,
      envTruthy (env2 "WORKATO_API_TOKEN") = true →
      envTruthy (env2 "WORKATO_BASE_URL") = true →
      serverStartupCheck env2 = .ok ()) := by
  refine ⟨?_, ?_, ?_⟩
  · simp [initClient, pyOrOpt, ht, getenvD, hb, Except.map]
  · have hmem : "WORKATO_BASE_URL" ∈ missing_vars env := by
      simp [missing_vars, required_env_vars, hb, envTruthy]
    cases hml : missing_vars env with
    | nil => rw [hml] at hmem; exact absurd hmem (by simp)
    | cons a l => simp [serverStartupCheck, hml]
  · intro env2 h1 h2
    simp [serverStartupCheck, missing_vars, required_env_vars, List.filter, h1, h2]

/-- Witness for the amended C6 at an environment with no variables at all. -/
theorem claim_C6_amended_witness :
    (strTruthy "tok" = true ∧
      (fun _ => (none : Option String)) "WORKATO_BASE_URL" = none) ∧
    (Except.map ClientState.base_url (initClient (some "tok") none (fun _ => none))
        = .ok defaultBaseUrl ∧
     serverStartupCheck (fun _ => none) ≠ .ok () ∧
     (∀ env2 : String → Option String,
       envTruthy (env2 "WORKATO_API_TOKEN") = true →
       envTruthy (env2 "WORKATO_BASE_URL") = true →
       serverStartupCheck env2 = .ok ())) :=
  ⟨⟨by decide, rfl⟩, claim_C6_amended (fun _ => none) "tok" (by decide) rfl⟩

/-- C8 (the tool layer is modelled from the spec, see `list_jobs_tool`):
invoking the list-jobs tool with `recipe_id = 1, status = "success",
limit = 10` issues a request to the jobs endpoint whose query parameters are
exactly those three pairs, and produces a result string containing the count
of the returned job records and their list. -/
theorem claim_C8 (st : ClientState) (resp : HttpResponse) (jobs : List Json)
    (hok : isSuccess resp.status = true) (hbody : resp.jsonBody = .arr jobs) :
    (list_jobs_tool st (some (.int 1)) (some "success") (some 10) resp).request.params
      = [("recipe_id", Json.num 1), ("status", Json.str "success"),
         ("limit", Json.num 10)] ∧
    (list_jobs_tool st (some (.int 1)) (some "success") (some 10) resp).result
      = .ok ("Found " ++ toString jobs.length ++ " jobs:\n\n"
              ++ Json.pyRepr (.arr jobs)) ∧
    (∃ a b, "Found " ++ toString jobs.length ++ " jobs:\n\n"
        ++ Json.pyRepr (.arr jobs) = a ++ toString jobs.length ++ b) ∧
    (∃ a b, "Found " ++ toString jobs.length ++ " jobs:\n\n"
        ++ Json.pyRepr (.arr jobs) = a ++ Json.pyRepr (.arr jobs) ++ b) := by
  refine ⟨rfl, ?_,
    ⟨"Found ", " jobs:\n\n" ++ Json.pyRepr (.arr jobs), ?_⟩,
    ⟨"Found " ++ toString jobs.length ++ " jobs:\n\n", "", ?_⟩⟩
  · simp [list_jobs_tool, get_jobs, mapResult, executeJson, hok, hbody,
          Except.map, pyLen]
  · simp [String.append_assoc]
  · simp [String.append_empty, String.append_assoc]

/-- The two job records the test fixtures use. -/
def sampleJobs : List Json :=
  [Json.obj [("id", Json.num 101), ("recipe_id", Json.num 1),
             ("status", Json.str "success")],
   Json.obj [("id", Json.num 102), ("recipe_id", Json.num 1),
             ("status", Json.str "error")]]

/-- A successful mocked jobs response. -/
def jobsResp : HttpResponse :=
  { status := 200, content := "[]", jsonBody := .arr sampleJobs }

/-- Witness for C8 at the concrete mocked jobs response. -/
theorem claim_C8_witness :
    (isSuccess jobsResp.status = true ∧ jobsResp.jsonBody = .arr sampleJobs) ∧
    ((list_jobs_tool sampleState (some (.int 1)) (some "success") (some 10)
        jobsResp).request.params
      = [("recipe_id", Json.num 1), ("status", Json.str "success"),
         ("limit", Json.num 10)] ∧
     (list_jobs_tool sampleState (some (.int 1)) (some "success") (some 10)
        jobsResp).result
      = .ok ("Found " ++ toString sampleJobs.length ++ " jobs:\n\n"
              ++ Json.pyRepr (.arr sampleJobs)) ∧
     (∃ a b, "Found " ++ toString sampleJobs.length ++ " jobs:\n\n"
        ++ Json.pyRepr (.arr sampleJobs) = a ++ toString sampleJobs.length ++ b) ∧
     (∃ a b, "Found " ++ toString sampleJobs.length ++ " jobs:\n\n"
        ++ Json.pyRepr (.arr sampleJobs) = a ++ Json.pyRepr (.arr sampleJobs) ++ b)) :=
  ⟨⟨by decide, rfl⟩, claim_C8 sampleState jobsResp sampleJobs (by decide) rfl⟩

/-- A successful construction stores exactly the two headers built from the
stored token: the bearer authorization and the JSON content type. -/
theorem initClient_headers (a b : Option String) (env : String → Option String)
    (st : ClientState) (h : initClient a b env = .ok st) :
    st.headers = [("Authorization", "Bearer " ++ st.api_token),
                  ("Content-Type", "application/json")] := by
  unfold initClient at h
  split at h
  · exact Except.noConfusion h
  · split at h
    · cases h
      rfl
    · exact Except.noConfusion h

/-- C9: after any call, every stored client field equals its construction
value: each modelled operation returns the state unchanged and sends exactly
the stored header set (the search-connectors attempt, which raises a
`TypeError` before any request exists, also leaves the state untouched);
`import_package` alone sends a fresh header dict with only the content-type
overridden to the binary type, for that single request, while the stored
state (and thus the stored header set built at construction) stays exactly
as `initClient` produced it. -/
theorem claim_C9 (a b : Option String) (env : String → Option String)
    (st : ClientState) (h : initClient a b env = .ok st)
    (rid lid row pid : IdVal) (p : Json) (input_d : Option Json)
    (fid fh : Option String) (folderId : Option Int) (itc idata rr it : Bool)
    (title fb : String) (recipeIdF : Option IdVal) (statusF : Option String)
    (limitF : Option Int) (resp : HttpResponse) :
    ((get_recipe_details st rid resp).state = st ∧
     (get_recipe_details st rid resp).request.headers = st.headers) ∧
    ((get_jobs st recipeIdF statusF limitF resp).state = st ∧
     (get_jobs st recipeIdF statusF limitF resp).request.headers = st.headers) ∧
    ((test_recipe st rid input_d resp).state = st ∧
     (test_recipe st rid input_d resp).request.headers = st.headers) ∧
    ((create_recipe st p resp).state = st ∧
     (create_recipe st p resp).request.headers = st.headers) ∧
    ((update_recipe st rid p resp).state = st ∧
     (update_recipe st rid p resp).request.headers = st.headers) ∧
    ((copy_recipe st rid fid resp).state = st ∧
     (copy_recipe st rid fid resp).request.headers = st.headers) ∧
    ((get_folder_assets st folderId itc idata resp).state = st ∧
     (get_folder_assets st folderId itc idata resp).request.headers = st.headers) ∧
    ((create_export_manifest st p resp).state = st ∧
     (create_export_manifest st p resp).request.headers = st.headers) ∧
    ((create_lookup_table st p resp).state = st ∧
     (create_lookup_table st p resp).request.headers = st.headers) ∧
    ((add_lookup_table_row st lid p resp).state = st ∧
     (add_lookup_table_row st lid p resp).request.headers = st.headers) ∧
    ((update_lookup_table_row st lid row p resp).state = st ∧
     (update_lookup_table_row st lid row p resp).request.headers = st.headers) ∧
    ((get_package st pid resp).state = st ∧
     (get_package st pid resp).request.headers = st.headers) ∧
    ((download_package st pid resp).state = st ∧
     (download_package st pid resp).request.headers = st.headers) ∧
    (search_custom_connectors st title resp).state = st ∧
    ((import_package st rid fb rr it fh resp).state = st ∧
     (import_package st rid fb rr it fh resp).request.headers
        = dictSet st.headers "Content-Type" "application/octet-stream") ∧
    (st.headers = [("Authorization", "Bearer " ++ st.api_token),
                   ("Content-Type", "application/json")] ∧
     (import_package st rid fb rr it fh resp).request.headers
        = [("Authorization", "Bearer " ++ st.api_token),
           ("Content-Type", "application/octet-stream")]) := by
  have hs := initClient_headers a b env st h
  refine ⟨⟨rfl, rfl⟩, ⟨rfl, rfl⟩, ⟨rfl, rfl⟩, ⟨rfl, rfl⟩, ⟨rfl, rfl⟩,
    ⟨rfl, rfl⟩, ⟨rfl, rfl⟩, ⟨rfl, rfl⟩, ⟨rfl, rfl⟩, ⟨rfl, rfl⟩, ⟨rfl, rfl⟩,
    ⟨rfl, rfl⟩, ⟨rfl, rfl⟩, rfl, ⟨rfl, rfl⟩, hs, ?_⟩
  show dictSet st.headers "Content-Type" "application/octet-stream"
      = [("Authorization", "Bearer " ++ st.api_token),
         ("Content-Type", "application/octet-stream")]
  rw [hs]
  rfl

/-- Witness for C9 at a concrete construction and concrete calls. -/
theorem claim_C9_witness :
    initClient (some "test_token") (some "https://test.workato.com/api")
      (fun _ => none) = .ok sampleState ∧
    (((get_recipe_details sampleState (.int 1) sampleResp).state = sampleState ∧
     (get_recipe_details sampleState (.int 1) sampleResp).request.headers = sampleState.headers) ∧
    ((get_jobs sampleState none none none sampleResp).state = sampleState ∧
     (get_jobs sampleState none none none sampleResp).request.headers = sampleState.headers) ∧
    ((test_recipe sampleState (.int 1) none sampleResp).state = sampleState ∧
     (test_recipe sampleState (.int 1) none sampleResp).request.headers = sampleState.headers) ∧
    ((create_recipe sampleState Json.null sampleResp).state = sampleState ∧
     (create_recipe sampleState Json.null sampleResp).request.headers = sampleState.headers) ∧
    ((update_recipe sampleState (.int 1) Json.null sampleResp).state = sampleState ∧
     (update_recipe sampleState (.int 1) Json.null sampleResp).request.headers = sampleState.headers) ∧
    ((copy_recipe sampleState (.int 1) none sampleResp).state = sampleState ∧
     (copy_recipe sampleState (.int 1) none sampleResp).request.headers = sampleState.headers) ∧
    ((get_folder_assets sampleState none false false sampleResp).state = sampleState ∧
     (get_folder_assets sampleState none false false sampleResp).request.headers = sampleState.headers) ∧
    ((create_export_manifest sampleState Json.null sampleResp).state = sampleState ∧
     (create_export_manifest sampleState Json.null sampleResp).request.headers = sampleState.headers) ∧
    ((create_lookup_table sampleState Json.null sampleResp).state = sampleState ∧
     (create_lookup_table sampleState Json.null sampleResp).request.headers = sampleState.headers) ∧
    ((add_lookup_table_row sampleState (.int 2) Json.null sampleResp).state = sampleState ∧
     (add_lookup_table_row sampleState (.int 2) Json.null sampleResp).request.headers = sampleState.headers) ∧
    ((update_lookup_table_row sampleState (.int 2) (.int 3) Json.null sampleResp).state = sampleState ∧
     (update_lookup_table_row sampleState (.int 2) (.int 3) Json.null sampleResp).request.headers = sampleState.headers) ∧
    ((get_package sampleState (.int 4) sampleResp).state = sampleState ∧
     (get_package sampleState (.int 4) sampleResp).request.headers = sampleState.headers) ∧
    ((download_package sampleState (.int 4) sampleResp).state = sampleState ∧
     (download_package sampleState (.int 4) sampleResp).request.headers = sampleState.headers) ∧
    (search_custom_connectors sampleState "t" sampleResp).state = sampleState ∧
    ((import_package sampleState (.int 1) "PK" false false none sampleResp).state = sampleState ∧
     (import_package sampleState (.int 1) "PK" false false none sampleResp).request.headers
        = dictSet sampleState.headers "Content-Type" "application/octet-stream") ∧
    (sampleState.headers = [("Authorization", "Bearer " ++ sampleState.api_token),
                   ("Content-Type", "application/json")] ∧
     (import_package sampleState (.int 1) "PK" false false none sampleResp).request.headers
        = [("Authorization", "Bearer " ++ sampleState.api_token),
           ("Content-Type", "application/octet-stream")])) :=
  ⟨rfl, claim_C9 (some "test_token") (some "https://test.workato.com/api")
    (fun _ => none) sampleState rfl (.int 1) (.int 2) (.int 3) (.int 4)
    Json.null none none none none false false false false "t" "PK"
    none none none sampleResp⟩
